import Mathlib

/-!
# Verification of the Partner Matching & Moderation Engine

Shallow embedding of the matching-bot repository (source files `src/bot.py`
and `src/main.py`) and proofs about the frozen specification claims.

Conventions of the embedding:
* SQLite tables become Lean lists of rows; a `PRIMARY KEY` / `UNIQUE`
  constraint is reflected in the insert operation (`INSERT OR IGNORE`
  inserts only when the key is absent, `INSERT OR REPLACE` removes the
  conflicting row first and appends the fresh one).
* `datetime` values become `Int` (seconds); `timedelta(days=d)` becomes
  `d * 86400`; the ISO-string comparisons performed by the SQL queries are
  order-isomorphic to the chronological order, hence to `Int` order.
* Python floats only ever hold sums of integers and integer multiples of
  `0.5` in this program, which they represent exactly; we use `ℚ`.
* A function wrapped in the `safe_db_execute` decorator returns `Option`:
  `none` models the `None` returned after a caught `sqlite3.Error`.
-/

namespace RustTeamSearch

/-! ## Data model (`src/bot.py`, tables created by `init_db`) -/

/-- A row of the `users` table (bot.py `init_db`): telegram_id is the
primary key; `is_active`/`is_verified` are the 0/1 flags. -/
structure UserRow where
  telegram_id : Nat
  name : String
  hours : Int
  age : Int
  bio : String
  username : String
  is_active : Bool
  is_verified : Bool
  deriving DecidableEq, Repr

/-- A row of the `stats` table: three counters per user. -/
structure StatRow where
  user_id : Nat
  viewed_profiles : Nat
  likes_given : Nat
  «matches» : Nat
  deriving DecidableEq, Repr

/-- The field names accepted by `update_stat` (its `allowed_fields`). -/
inductive StatField where
  | viewed_profiles
  | likes_given
  | «matches»
  deriving DecidableEq, Repr

/-- The bot's SQLite database state: `users`, `likes` (PRIMARY KEY
`(from_id, to_id)`), `pending_likes` (PRIMARY KEY `(from_id, to_id)`,
with the liker's display name), `reports` (UNIQUE `(reporter, reported)`),
`temp_bans` (PRIMARY KEY `user_id`, with the expiry time) and `stats`. -/
structure DB where
  users : List UserRow
  likes : List (Nat × Nat)
  pending_likes : List (Nat × Nat × String)
  reports : List (Nat × Nat)
  temp_bans : List (Nat × Int)
  stats : List StatRow
  deriving DecidableEq, Repr

/-- The freshly initialised database: all tables empty. -/
def emptyDB : DB :=
  { users := [], likes := [], pending_likes := [], reports := [], temp_bans := [], stats := [] }

/-- Bump one counter of a `stats` row. -/
def bumpStat : StatField → StatRow → StatRow
  | StatField.viewed_profiles, r => { r with viewed_profiles := r.viewed_profiles + 1 }
  | StatField.likes_given, r => { r with likes_given := r.likes_given + 1 }
  | StatField.«matches», r => { r with «matches» := r.«matches» + 1 }

/-- `update_stat` (bot.py): `INSERT OR IGNORE INTO stats (user_id)` then
`UPDATE stats SET field = field + 1 WHERE user_id = ?`. -/
def update_stat (db : DB) (user_id : Nat) (field : StatField) : DB :=
  let rows :=
    if db.stats.any (fun r => r.user_id == user_id) then db.stats
    else db.stats ++ [⟨user_id, 0, 0, 0⟩]
  { db with stats := rows.map (fun r => if r.user_id = user_id then bumpStat field r else r) }

/-! ## LikeMatchEngine (`src/bot.py`) -/

/-- `add_like` (bot.py): `INSERT OR IGNORE INTO likes (from_id, to_id)`,
then `SELECT 1 FROM likes WHERE from_id = to_id AND to_id = from_id` on the
same connection (so the check sees the fresh insert); on a match both
users' `matches` counters are bumped.  Returns the new state and the
match flag. -/
def add_like (db : DB) (from_id to_id : Nat) : DB × Bool :=
  let likes' :=
    if (from_id, to_id) ∈ db.likes then db.likes else db.likes ++ [(from_id, to_id)]
  let db' : DB := { db with likes := likes' }
  if (to_id, from_id) ∈ likes' then
    (update_stat (update_stat db' from_id StatField.«matches») to_id StatField.«matches», true)
  else
    (db', false)

/-- `add_pending_like` (bot.py): `INSERT OR REPLACE INTO pending_likes`,
keyed on `(from_id, to_id)`. -/
def add_pending_like (db : DB) (from_id to_id : Nat) (from_name : String) : DB :=
  { db with pending_likes :=
      (db.pending_likes.filter fun p => !(p.1 == from_id && p.2.1 == to_id)) ++
        [(from_id, to_id, from_name)] }

/-- `remove_pending_like` (bot.py): `DELETE FROM pending_likes WHERE
from_id = ? AND to_id = ?`. -/
def remove_pending_like (db : DB) (from_id to_id : Nat) : DB :=
  { db with pending_likes :=
      db.pending_likes.filter fun p => !(p.1 == from_id && p.2.1 == to_id) }

/-- The `like` branch of `handle_callback` (bot.py): `add_like`, bump
`likes_given`; on a match the match notification fires (`notify_match`),
otherwise a `pending_like` carrying the liker's name is created and the
queue advances.  The returned flag is `is_match`, which is exactly the
condition under which the match notification pair is sent. -/
def likeCallback (db : DB) (user_id partner_id : Nat) (user_name : String) : DB × Bool :=
  let r := add_like db user_id partner_id
  let db1 := update_stat r.1 user_id StatField.likes_given
  if r.2 then (db1, true)
  else (add_pending_like db1 user_id partner_id user_name, false)

/-- The `respond` / `like` branch of `handle_callback` (bot.py): the
responder accepts an incoming like: `add_like(user_id, from_id)` then
`remove_pending_like(from_id, user_id)`.  The returned flag is
`is_match`; when it is `true` the match notification pair is sent. -/
def respondLikeCallback (db : DB) (user_id from_id : Nat) : DB × Bool :=
  let r := add_like db user_id from_id
  (remove_pending_like r.1 from_id user_id, r.2)

/-- The `respond` / `dislike` branch of `handle_callback` (bot.py):
only `remove_pending_like(from_id, user_id)` runs. -/
def respondDislikeCallback (db : DB) (user_id from_id : Nat) : DB :=
  remove_pending_like db from_id user_id

/-! ## RateLimiter (`src/bot.py`) -/

/-- `RateLimiter.check_limit` (bot.py), for one `(user, action)` key whose
stored timestamp list is `reqs` and whose current time is `now`: first
drop every timestamp `t` with `¬(now - t < period)`, then refuse (without
recording) when at least `limit` remain, otherwise record `now` and allow.
Returns the new per-key list and the verdict. -/
def check_limit (reqs : List Int) (now : Int) (limit : Nat) (period : Int) :
    List Int × Bool :=
  let pruned := reqs.filter fun t => decide (now - t < period)
  if pruned.length ≥ limit then (pruned, false)
  else (pruned ++ [now], true)

/-- The per-key timestamp list after a sequence of `check_limit` calls at
the given times, starting from the fresh (empty) key state. -/
def limiterRun (limit : Nat) (period : Int) (times : List Int) : List Int :=
  times.foldl (fun reqs now => (check_limit reqs now limit period).1) []

/-- The verdicts of a sequence of `check_limit` calls at the given times,
starting from the fresh (empty) key state. -/
def limiterVerdicts (limit : Nat) (period : Int) (times : List Int) : List Bool :=
  (times.foldl
    (fun (acc : List Int × List Bool) now =>
      let r := check_limit acc.1 now limit period
      (r.1, acc.2 ++ [r.2]))
    ([], [])).2

/-! ## ModerationEngine (`src/bot.py`) -/

/-- Lookup of the `temp_bans` row of a user.  `user_id` is the table's
PRIMARY KEY, so the row is unique and SQL's joins/`fetchone` agree with
taking the first hit. -/
def bansLookup (db : DB) (user_id : Nat) : Option Int :=
  (db.temp_bans.find? fun r => r.1 == user_id).map fun r => r.2

/-- `is_user_banned` (bot.py): `SELECT banned_until FROM temp_bans WHERE
user_id = ? AND banned_until > now` has a row. -/
def is_user_banned (db : DB) (now : Int) (user_id : Nat) : Bool :=
  db.temp_bans.any fun r => r.1 == user_id && decide (r.2 > now)

/-- `get_all_active_partners` (bot.py): all user rows other than
`exclude_id` with `is_active = 1` and, via `LEFT JOIN temp_bans`, either
no ban row or `banned_until < now`. -/
def get_all_active_partners (db : DB) (now : Int) (exclude_id : Nat) : List UserRow :=
  db.users.filter fun u =>
    u.telegram_id != exclude_id && u.is_active &&
      (match bansLookup db u.telegram_id with
       | none => true
       | some b => decide (b < now))

/-- `deactivate_user` (bot.py): `UPDATE users SET is_active = 0 WHERE
telegram_id = ?`. -/
def deactivate_user (db : DB) (tg_id : Nat) : DB :=
  { db with users := db.users.map fun r =>
      if r.telegram_id = tg_id then { r with is_active := false } else r }

/-- `activate_user` (bot.py): `UPDATE users SET is_active = 1 WHERE
telegram_id = ?`. -/
def activate_user (db : DB) (tg_id : Nat) : DB :=
  { db with users := db.users.map fun r =>
      if r.telegram_id = tg_id then { r with is_active := true } else r }

/-- Seconds in a day: `timedelta(days=d)` is `d * 86400` seconds. -/
def secondsPerDay : Int := 86400

/-- `ban_user_temporarily` (bot.py): `INSERT OR REPLACE INTO temp_bans`
with expiry `now + timedelta(days=days)`, then `deactivate_user`. -/
def ban_user_temporarily (db : DB) (now : Int) (user_id : Nat) (days : Int) : DB :=
  let banned_until := now + days * secondsPerDay
  let db' : DB :=
    { db with temp_bans := (db.temp_bans.filter fun r => r.1 != user_id) ++
        [(user_id, banned_until)] }
  deactivate_user db' user_id

/-- `unban_user` (bot.py): `DELETE FROM temp_bans WHERE user_id = ?`,
then `activate_user`. -/
def unban_user (db : DB) (user_id : Nat) : DB :=
  activate_user { db with temp_bans := db.temp_bans.filter fun r => r.1 != user_id } user_id

/-! ## SimilarityRanker (`src/bot.py`) -/

/-- Lower-casing of one character, as Python's `str.lower` acts on the
alphabets this program compares: ASCII `A`–`Z` and Cyrillic `А`–`Я` move
down by 32 code points, `Ё` maps to `ё`; everything else that could occur
around the four Cyrillic keywords is left unchanged. -/
def charLower (c : Char) : Char :=
  if 'A' ≤ c ∧ c ≤ 'Z' then Char.ofNat (c.toNat + 32)
  else if 'А' ≤ c ∧ c ≤ 'Я' then Char.ofNat (c.toNat + 32)
  else if c = 'Ё' then 'ё'
  else c

/-- `bio.lower()`: lower-case every character. -/
def lowerStr (s : String) : String :=
  String.mk (s.data.map charLower)

/-- `needle` begins `hay` (character-wise). -/
def beginsWith : List Char → List Char → Bool
  | [], _ => true
  | _ :: _, [] => false
  | a :: as, b :: bs => a == b && beginsWith as bs

/-- `needle` occurs somewhere inside `hay` (Python's `needle in hay`). -/
def occursIn (needle : List Char) : List Char → Bool
  | [] => beginsWith needle []
  | c :: rest => beginsWith needle (c :: rest) || occursIn needle rest

/-- Python's substring test `needle in hay` on strings. -/
def strHas (hay needle : String) : Bool :=
  occursIn needle.data hay.data

/-- The fixed affinity keyword list of `advanced_similarity` (bot.py). -/
def affinityKeywords : List String :=
  ["спокойный", "тихий", "база", "дружелюбный"]

/-- `advanced_similarity` (bot.py): the candidate's score against the
searching user's `(current_hours, current_age)`.  `diff` is
`abs(hours - current_hours) * 0.5 + abs(age - current_age) * 0.5`; a
verified candidate gets `-20`; a non-empty bio whose lower-casing contains
one of the four keywords gets `-10`.  Lower is better. -/
def advanced_similarity (current_hours current_age : Int) (p : UserRow) : ℚ :=
  let diff : ℚ := ((|p.hours - current_hours| : ℤ) : ℚ) * 0.5 +
    ((|p.age - current_age| : ℤ) : ℚ) * 0.5
  let verified_bonus : ℚ := if p.is_verified then -20 else 0
  let keyword_bonus : ℚ :=
    if p.bio ≠ "" ∧ affinityKeywords.any (fun w => strHas (lowerStr p.bio) w) then -10 else 0
  diff + verified_bonus + keyword_bonus

/-- The spec's wording of the score (§4.1): `0.5*|candidate.hours -
self.hours| + 0.5*|candidate.age - self.age| + verifiedBonus +
keywordBonus`, with `verifiedBonus = -20` iff verified and
`keywordBonus = -10` iff the bio contains (case-insensitively) a
configured affinity keyword.  Stated from the spec, to be compared with
`advanced_similarity`. -/
def specSimilarityScore (current_hours current_age : Int) (p : UserRow) : ℚ :=
  0.5 * |(p.hours : ℚ) - (current_hours : ℚ)| + 0.5 * |(p.age : ℚ) - (current_age : ℚ)| +
    (if p.is_verified then -20 else 0) +
    (if affinityKeywords.any (fun w => strHas (lowerStr p.bio) w) then -10 else 0)

/-- `find_partner` (bot.py): `sorted(partners, key=advanced_similarity …)`.
Python's `sorted` is the stable ascending sort, which on every input
coincides with stable insertion sort by `≤` on the key. -/
def rankPartners (current_hours current_age : Int) (partners : List UserRow) : List UserRow :=
  List.insertionSort
    (fun p q => advanced_similarity current_hours current_age p ≤
      advanced_similarity current_hours current_age q)
    partners

/-! ## SessionQueue (`src/bot.py`) -/

/-- The per-user session state kept in `context.user_data`:
`partner_queue` (the ids still to show) and `original_partners` (the
snapshot taken at build time). -/
structure Session where
  partner_queue : List Nat
  original_partners : List Nat
  deriving DecidableEq, Repr

/-- `find_partner` (bot.py) after ranking: both the queue and the
original snapshot are set to the ranked id list. -/
def buildSession (ranked_ids : List Nat) : Session :=
  { partner_queue := ranked_ids, original_partners := ranked_ids }

/-- `next_partner` (bot.py): pop the head of `partner_queue` and show it;
an empty queue signals exhaustion (`none`, the "start over?" prompt). -/
def next_partner (s : Session) : Option Nat × Session :=
  match s.partner_queue with
  | [] => (none, s)
  | h :: t => (some h, { s with partner_queue := t })

/-- The `restart_search` branch of `handle_callback` (bot.py): restore
`partner_queue` from `original_partners` and show its head (`none` when
the snapshot is empty). -/
def restart_search (s : Session) : Option Nat × Session :=
  match s.original_partners with
  | [] => (none, s)
  | h :: _ => (some h, { s with partner_queue := s.original_partners })

/-! ## `Database.__exit__` / `safe_db_execute` failure model (`src/bot.py`)

A decorated operation runs a sequence of SQL statements on one
connection.  A statement either transforms the connection's state or
raises (`none`), in which case the remaining statements do not run and
`safe_db_execute` catches the exception and returns `None`.  Crucially,
`Database.__exit__` runs `self.conn.commit()` *unconditionally* — also
when the body raised — so whatever the connection state was at the
moment of the failure is committed; `rollback` happens only if the
commit itself raises, which we model as not happening. -/

/-- One SQL statement: transforms the connection state or raises. -/
def Step : Type := DB → Option DB

/-- Run statements in order until one raises; return the connection
state at exit and whether the body completed. -/
def runSteps : List Step → DB → DB × Bool
  | [], db => (db, true)
  | s :: rest, db =>
    match s db with
    | none => (db, false)
    | some db' => runSteps rest db'

/-- `safe_db_execute` around a `with Database()` block: the connection
state at exit is committed unconditionally by `Database.__exit__`, and a
raised `sqlite3.Error` is caught and surfaced as `none`. -/
def safe_db_execute (steps : List Step) (db : DB) : DB × Option Unit :=
  let r := runSteps steps db
  (r.1, if r.2 then some () else none)

/-- A statement that always succeeds with the given write. -/
def liftWrite (f : DB → DB) : Step := fun db => some (f db)

/-- A statement that raises (e.g. the store is unavailable). -/
def failingStep : Step := fun _ => none

/-- The `INSERT OR IGNORE INTO likes` statement of `add_like`, as a
single `Step` (used to exhibit a partially committed operation). -/
def insertLikeStep (from_id to_id : Nat) : Step :=
  liftWrite fun db =>
    { db with likes :=
        if (from_id, to_id) ∈ db.likes then db.likes else db.likes ++ [(from_id, to_id)] }

/-! ## Engine operations and reachable states (`src/bot.py`) -/

/-- The user-driven operations of the like/match engine: a swipe-queue
like (with the liker's display name), an inbox accept and an inbox
reject.  (A swipe-queue dislike touches no table.) -/
inductive EngineOp where
  | like (user_id partner_id : Nat) (user_name : String)
  | respondLike (user_id from_id : Nat)
  | respondDislike (user_id from_id : Nat)
  deriving DecidableEq, Repr

/-- Apply one engine operation to the database. -/
def applyOp (db : DB) : EngineOp → DB
  | EngineOp.like u p n => (likeCallback db u p n).1
  | EngineOp.respondLike u f => (respondLikeCallback db u f).1
  | EngineOp.respondDislike u f => respondDislikeCallback db u f

/-- The database after a sequence of engine operations from the fresh
state: the reachable states of the like/match engine. -/
def runOps (ops : List EngineOp) : DB :=
  ops.foldl applyOp emptyDB

/-! ## `src/main.py`: the alternative bot -/

/-- `Database.add_like` (main.py): plain `INSERT INTO likes` — the table
has only an autoincrement id, *no* uniqueness constraint on
`(liker_id, liked_id)` — then the reverse-pair check.  The likes table is
the bag of `(liker_id, liked_id)` rows. -/
def mainAddLike (likes : List (Nat × Nat)) (liker_id liked_id : Nat) :
    List (Nat × Nat) × Bool :=
  let likes' := likes ++ [(liker_id, liked_id)]
  (likes', decide ((liked_id, liker_id) ∈ likes'))

/-- The tables created by `Database.create_tables` (main.py). -/
def mainSchemaTables : List String := ["profiles", "likes", "daily_likes"]

/-- The database operations main.py can perform after start-up.  None of
them executes a `CREATE TABLE`: the schema is fixed at `create_tables`. -/
inductive MainOp where
  | create_profile
  | get_profile
  | get_random_profile
  | add_like
  | get_daily_likes_count
  | increment_daily_likes
  | reset_daily_likes
  deriving DecidableEq, Repr

/-- Schema effect of a main.py operation: no operation creates a table. -/
def mainOpSchema (schema : List String) (_ : MainOp) : List String := schema

/-- The schema after any sequence of main.py operations. -/
def mainSchemaAfter (ops : List MainOp) : List String :=
  ops.foldl mainOpSchema mainSchemaTables

/-- The `matches` command (main.py): its query reads the tables
`matches` and `profiles`; SQLite raises `no such table` when a referenced
table is missing from the schema, otherwise the matched profiles would be
returned. -/
def matchesListing (schema : List String) : Except String Unit :=
  if "matches" ∈ schema ∧ "profiles" ∈ schema then Except.ok ()
  else Except.error "no such table"

/-! ## Concrete profiles and states used by the end-to-end scenarios -/

/-- Profile `B(hours=110, age=22, verified=true)` of the spec's ranking
scenario (§8); empty bio, active. -/
def profB : UserRow := ⟨2, "B", 110, 22, "", "", true, true⟩

/-- Profile `C(hours=500, age=40)` of the spec's ranking scenario (§8);
not verified, empty bio, active. -/
def profC : UserRow := ⟨3, "C", 500, 40, "", "", true, false⟩

/-- A one-user database used to instantiate the moderation claims. -/
def dbW : DB :=
  { users := [⟨1, "u", 0, 0, "", "", true, false⟩], likes := [], pending_likes := [],
    reports := [], temp_bans := [], stats := [] }

/-- The pending-likes inbox respects the edge table: every pending like
`(from, to)` has its `(from, to)` edge already inserted in `likes`.  This
is the invariant connecting `add_pending_like` (only called by the like
branch after `add_like`) to `respond`. -/
def pendingEdgeInv (db : DB) : Prop :=
  ∀ p ∈ db.pending_likes, (p.1, p.2.1) ∈ db.likes

/-! # Theorems -/

/-! ## Basic facts about the like/match engine -/

theorem update_stat_likes (db : DB) (u : Nat) (f : StatField) :
    (update_stat db u f).likes = db.likes := rfl

theorem update_stat_pending (db : DB) (u : Nat) (f : StatField) :
    (update_stat db u f).pending_likes = db.pending_likes := rfl

theorem add_like_likes (db : DB) (f t : Nat) :
    ((add_like db f t).1).likes =
      if (f, t) ∈ db.likes then db.likes else db.likes ++ [(f, t)] := by
  simp only [add_like]
  split <;> split <;> rfl

theorem add_like_pending (db : DB) (f t : Nat) :
    ((add_like db f t).1).pending_likes = db.pending_likes := by
  simp only [add_like]
  split <;> split <;> rfl

theorem add_like_flag (db : DB) (f t : Nat) :
    (add_like db f t).2 =
      decide ((t, f) ∈ if (f, t) ∈ db.likes then db.likes else db.likes ++ [(f, t)]) := by
  simp only [add_like]
  split <;> split <;> simp_all

theorem likes_subset_add_like (db : DB) (f t : Nat) :
    db.likes ⊆ ((add_like db f t).1).likes := by
  rw [add_like_likes]
  split
  · exact fun _ h => h
  · exact fun _ h => List.mem_append_left _ h

theorem mem_add_like_self (db : DB) (f t : Nat) :
    (f, t) ∈ ((add_like db f t).1).likes := by
  rw [add_like_likes]
  split
  · assumption
  · exact List.mem_append_right _ (List.mem_singleton.mpr rfl)

theorem likeCallback_likes (db : DB) (u p : Nat) (n : String) :
    ((likeCallback db u p n).1).likes = ((add_like db u p).1).likes := by
  simp only [likeCallback]
  split <;> rfl

theorem likeCallback_flag (db : DB) (u p : Nat) (n : String) :
    (likeCallback db u p n).2 = (add_like db u p).2 := by
  simp only [likeCallback]
  split <;> simp_all

theorem respondLikeCallback_likes (db : DB) (u f : Nat) :
    ((respondLikeCallback db u f).1).likes = ((add_like db u f).1).likes := rfl

theorem respondLikeCallback_flag (db : DB) (u f : Nat) :
    (respondLikeCallback db u f).2 = (add_like db u f).2 := rfl

/-! ## C1 — duplicate-free like edges -/

/-- C1 (counterexample): the claim also covers `Database.add_like` of
`src/main.py`, which runs a plain `INSERT INTO likes` on a table whose
only key is an autoincrement id.  Calling `add_like(1, 2)` twice from the
empty table leaves the duplicate directed pair `(1, 2)` twice in the edge
set — the second call does not leave the edge set unchanged, so the like
operation is not idempotent there. -/
theorem claim_C1_counterexample :
    ((mainAddLike (mainAddLike [] 1 2).1 1 2).1).count (1, 2) = 2 ∧
      ¬ ((mainAddLike (mainAddLike [] 1 2).1 1 2).1).Nodup ∧
      (mainAddLike (mainAddLike [] 1 2).1 1 2).1 ≠ (mainAddLike [] 1 2).1 := by
  decide

/-- C1 (amended): in `src/bot.py`, `add_like` (`INSERT OR IGNORE` into a
table with PRIMARY KEY `(from_id, to_id)`) is idempotent on the edge set —
a repeated `like(A,B)` leaves it unchanged — and it preserves freedom from
duplicate directed pairs, so every reachable bot database keeps at most
one edge per ordered pair.  `src/main.py`'s `Database.add_like`, by
contrast, inserts unconditionally and does create duplicates
(`claim_C1_counterexample`). -/
theorem claim_C1_amended :
    (∀ (db : DB) (f t : Nat),
      ((add_like (add_like db f t).1 f t).1).likes = ((add_like db f t).1).likes) ∧
    (∀ (db : DB) (f t : Nat), db.likes.Nodup → ((add_like db f t).1).likes.Nodup) := by
  constructor
  · intro db f t
    rw [add_like_likes, add_like_likes]
    by_cases h : (f, t) ∈ db.likes
    · simp [h]
    · simp [h]
  · intro db f t hnd
    rw [add_like_likes]
    by_cases h : (f, t) ∈ db.likes
    · rwa [if_pos h]
    · rw [if_neg h]
      simp [List.nodup_append, hnd, h]

/-- C1 (witness): the amended theorem applied to the fresh database. -/
theorem claim_C1_witness :
    (emptyDB.likes.Nodup) ∧ ((add_like emptyDB 1 2).1).likes.Nodup :=
  ⟨List.nodup_nil, claim_C1_amended.2 emptyDB 1 2 List.nodup_nil⟩

/-! ## C2 — match fires exactly on the completing like -/

/-- C2 (counterexample): after `like(1,2)` then `like(2,1)` created the
match, a further `like(1,2)` — reachable because `find_partner` never
filters out already-liked or already-matched users — again returns the
match flag, which is precisely the condition on which `handle_callback`
sends the match notification pair.  This refutes "no subsequent like call
on the same pair triggers a notification again". -/
theorem claim_C2_counterexample :
    (likeCallback (likeCallback (likeCallback emptyDB 1 2 "a").1 2 1 "b").1 1 2 "a").2 =
      true := by
  decide

/-- C2 (amended): for users `A ≠ B` with no prior edges between them,
`like(A,B)` then `like(B,A)` yields the match on the second call and not
the first; however, match detection merely re-checks the reverse edge, so
*any* like call on a pair whose reverse edge exists returns the match
flag and re-triggers the notification pair — repetition after the match
is not suppressed (see `claim_C2_counterexample`). -/
theorem claim_C2_amended :
    (∀ (db : DB) (A B : Nat) (nA nB : String), A ≠ B →
      (A, B) ∉ db.likes → (B, A) ∉ db.likes →
      (likeCallback db A B nA).2 = false ∧
      (likeCallback (likeCallback db A B nA).1 B A nB).2 = true) ∧
    (∀ (db : DB) (C D : Nat) (n : String), (D, C) ∈ db.likes →
      (likeCallback db C D n).2 = true) := by
  have hmem : ∀ (db : DB) (C D : Nat) (n : String), (D, C) ∈ db.likes →
      (likeCallback db C D n).2 = true := by
    intro db C D n h
    rw [likeCallback_flag, add_like_flag]
    split
    · simp [h]
    · simp [List.mem_append_left _ h]
  refine ⟨?_, hmem⟩
  intro db A B nA nB hne hAB hBA
  constructor
  · rw [likeCallback_flag, add_like_flag, if_neg hAB]
    simp only [decide_eq_false_iff_not, List.mem_append, List.mem_singleton]
    rintro (h | h)
    · exact hBA h
    · injection h with h1 h2
      exact hne h2
  · apply hmem
    rw [likeCallback_likes, add_like_likes, if_neg hAB]
    exact List.mem_append_right _ (List.mem_singleton.mpr rfl)

/-- C2 (witness): the amended theorem instantiated on the fresh database
with users 1 and 2. -/
theorem claim_C2_witness :
    (likeCallback emptyDB 1 2 "a").2 = false ∧
      (likeCallback (likeCallback emptyDB 1 2 "a").1 2 1 "b").2 = true :=
  claim_C2_amended.1 emptyDB 1 2 "a" "b" (by decide) (by decide) (by decide)

/-! ## The pending-implies-edge invariant of reachable states -/

theorem pendingEdgeInv_empty : pendingEdgeInv emptyDB := by
  intro p hp
  simp [emptyDB] at hp

theorem pendingEdgeInv_applyOp (db : DB) (op : EngineOp) (h : pendingEdgeInv db) :
    pendingEdgeInv (applyOp db op) := by
  cases op with
  | like u pt n =>
    intro p hp
    simp only [applyOp] at hp ⊢
    rw [likeCallback_likes]
    simp only [likeCallback] at hp
    split at hp
    · rw [update_stat_pending, add_like_pending] at hp
      exact likes_subset_add_like db u pt (h p hp)
    · simp only [add_pending_like, update_stat_pending, add_like_pending,
        List.mem_append, List.mem_filter, List.mem_singleton] at hp
      rcases hp with ⟨hp, -⟩ | hp
      · exact likes_subset_add_like db u pt (h p hp)
      · subst hp
        exact mem_add_like_self db u pt
  | respondLike u f =>
    intro p hp
    simp only [applyOp, respondLikeCallback, remove_pending_like, add_like_pending,
      List.mem_filter] at hp
    simp only [applyOp, respondLikeCallback_likes]
    exact likes_subset_add_like db u f (h p hp.1)
  | respondDislike u f =>
    intro p hp
    simp only [applyOp, respondDislikeCallback, remove_pending_like,
      List.mem_filter] at hp
    exact h p hp.1

theorem runOps_pendingEdgeInv (ops : List EngineOp) : pendingEdgeInv (runOps ops) := by
  suffices hgen : ∀ (ops : List EngineOp) (db : DB), pendingEdgeInv db →
      pendingEdgeInv (ops.foldl applyOp db) by
    exact hgen ops emptyDB pendingEdgeInv_empty
  intro ops
  induction ops with
  | nil => intro db h; simpa using h
  | cons op rest ih =>
    intro db h
    simpa using ih (applyOp db op) (pendingEdgeInv_applyOp db op h)

/-! ## C3 — responding to a pending like -/

/-- C3 (counterexample): after `like(1,2)` and a first
`respond(2, 1, accept)` — which consumed the pending entry (the pending
inbox is empty afterwards) — a second identical `respond` call still
returns the match flag `true`: `handle_callback` re-runs `add_like` and
re-notifies, so the second response is *not* a no-op/Dismissed with no
further match result. -/
theorem claim_C3_counterexample :
    ((respondLikeCallback (likeCallback emptyDB 1 2 "a").1 2 1).1).pending_likes = [] ∧
    (respondLikeCallback (respondLikeCallback (likeCallback emptyDB 1 2 "a").1 2 1).1
        2 1).2 = true := by
  decide

/-- C3 (amended): in every database reachable through the engine's
operations, a pending like from `A` to `B` has its edge `A→B` already
recorded, so `respond(B, A, accept)` always returns Match.  But a second
`respond` for the consumed entry is not a no-op: it returns the very same
result (hence Match again, with a repeated notification —
`claim_C3_counterexample`); only the pending-entry removal itself is
idempotent. -/
theorem claim_C3_amended :
    (∀ (ops : List EngineOp) (A B : Nat) (name : String),
      (A, B, name) ∈ (runOps ops).pending_likes →
      (respondLikeCallback (runOps ops) B A).2 = true) ∧
    (∀ (db : DB) (u f : Nat),
      (respondLikeCallback (respondLikeCallback db u f).1 u f).2 =
        (respondLikeCallback db u f).2) ∧
    (∀ (db : DB) (f t : Nat),
      remove_pending_like (remove_pending_like db f t) f t =
        remove_pending_like db f t) := by
  refine ⟨?_, ?_, ?_⟩
  · intro ops A B name hmem
    have hinv : pendingEdgeInv (runOps ops) := runOps_pendingEdgeInv ops
    have hedge : (A, B) ∈ (runOps ops).likes := hinv (A, B, name) hmem
    rw [respondLikeCallback_flag, add_like_flag]
    split
    · simp [hedge]
    · simp [List.mem_append_left _ hedge]
  · intro db u f
    rw [respondLikeCallback_flag, respondLikeCallback_flag, add_like_flag, add_like_flag]
    have hlikes : ((respondLikeCallback db u f).1).likes = ((add_like db u f).1).likes := rfl
    rw [hlikes, add_like_likes]
    by_cases h : (u, f) ∈ db.likes
    · simp [h]
    · simp [h]
  · intro db f t
    simp [remove_pending_like, List.filter_filter]

/-- C3 (witness): a reachable state with a pending like `(1, 2)`; the
amended theorem yields Match for `respond(2, 1, accept)`. -/
theorem claim_C3_witness :
    (1, 2, "a") ∈ (runOps [EngineOp.like 1 2 "a"]).pending_likes ∧
      (respondLikeCallback (runOps [EngineOp.like 1 2 "a"]) 2 1).2 = true :=
  ⟨by decide, claim_C3_amended.1 [EngineOp.like 1 2 "a"] 1 2 "a" (by decide)⟩

/-! ## C4 — similarity score and ranking -/

theorem affinity_on_empty_bio :
    (affinityKeywords.any fun w => strHas (lowerStr "") w) = false := by
  decide

theorem advanced_similarity_profB : advanced_similarity 100 20 profB = -14 := by
  simp only [advanced_similarity, profB]
  norm_num

theorem advanced_similarity_profC : advanced_similarity 100 20 profC = 210 := by
  simp only [advanced_similarity, profC]
  norm_num

/-- C4: the code's `advanced_similarity` coincides everywhere with the
spec's score formula; the ranking used by `find_partner` is sorted
ascending by that score; and on the spec's §8 scenario — searcher
`A(hours=100, age=20)` over `B(110, 22, verified)` and `C(500, 40)` — the
ranking is `[B, C]` whichever order the store returned them in. -/
theorem claim_C4_similarity_ranking :
    (∀ (ch ca : Int) (p : UserRow),
      advanced_similarity ch ca p = specSimilarityScore ch ca p) ∧
    (∀ (ch ca : Int) (l : List UserRow),
      List.Sorted
        (fun p q => advanced_similarity ch ca p ≤ advanced_similarity ch ca q)
        (rankPartners ch ca l)) ∧
    rankPartners 100 20 [profB, profC] = [profB, profC] ∧
    rankPartners 100 20 [profC, profB] = [profB, profC] := by
  refine ⟨?_, ?_, ?_, ?_⟩
  · intro ch ca p
    simp only [advanced_similarity, specSimilarityScore]
    by_cases hb : p.bio = ""
    · rw [hb]
      simp only [affinity_on_empty_bio, ne_eq, not_true_eq_false, false_and, if_false,
        Bool.false_eq_true]
      push_cast [abs_sub_comm]
      ring
    · have hcond : (p.bio ≠ "" ∧
          (affinityKeywords.any fun w => strHas (lowerStr p.bio) w) = true) ↔
          ((affinityKeywords.any fun w => strHas (lowerStr p.bio) w) = true) := by
        simp [hb]
      rw [if_congr hcond rfl rfl]
      push_cast [abs_sub_comm]
      ring
  · intro ch ca l
    haveI : IsTotal UserRow
        (fun p q => advanced_similarity ch ca p ≤ advanced_similarity ch ca q) :=
      ⟨fun a b => le_total _ _⟩
    haveI : IsTrans UserRow
        (fun p q => advanced_similarity ch ca p ≤ advanced_similarity ch ca q) :=
      ⟨fun a b c hab hbc => le_trans hab hbc⟩
    exact List.sorted_insertionSort _ l
  · simp [rankPartners, List.insertionSort, List.orderedInsert,
      advanced_similarity_profB, advanced_similarity_profC]
    norm_num
  · simp [rankPartners, List.insertionSort, List.orderedInsert,
      advanced_similarity_profB, advanced_similarity_profC]
    norm_num

/-! ## C5 — sliding-window rate limiter -/

/-- C5: `check_limit` keeps, per key, exactly the timestamps inside the
trailing period; with at least `limit` of them it refuses and records
nothing, otherwise it records `now` and allows.  Concretely, with limit 5
and period 60 and all five calls at time 0: the five calls are allowed,
a sixth at time 0 and a seventh at time 59 are denied (still inside the
window), and a call at time 60 — the window fully elapsed, since pruning
keeps `now - t < 60` — succeeds again. -/
theorem claim_C5_rate_limiter :
    (∀ (reqs : List Int) (now : Int) (limit : Nat) (period : Int),
      ((reqs.filter fun t => decide (now - t < period)).length ≥ limit →
        check_limit reqs now limit period =
          (reqs.filter fun t => decide (now - t < period), false)) ∧
      ((reqs.filter fun t => decide (now - t < period)).length < limit →
        check_limit reqs now limit period =
          ((reqs.filter fun t => decide (now - t < period)) ++ [now], true))) ∧
    limiterVerdicts 5 60 [0, 0, 0, 0, 0, 0, 59, 60] =
      [true, true, true, true, true, false, false, true] := by
  constructor
  · intro reqs now limit period
    constructor
    · intro h
      simp only [check_limit]
      rw [if_pos h]
    · intro h
      simp only [check_limit]
      rw [if_neg (by omega)]
  · decide

/-- C5 (witness): the general branch of `claim_C5_rate_limiter` applied
to the fresh key at time 0: the call is recorded and allowed. -/
theorem claim_C5_witness :
    check_limit [] 0 5 60 = ([0], true) := by
  have h := (claim_C5_rate_limiter.1 [] 0 5 60).2 (by decide)
  exact h.trans (by decide)

/-! ## C6 — bans and eligibility -/

theorem ban_any_eq_false_of_not_mem (l : List (Nat × Int)) (u : Nat) (now : Int)
    (h : ∀ r ∈ l, r.1 ≠ u) :
    (l.any fun r => r.1 == u && decide (r.2 > now)) = false := by
  rw [List.any_eq_false]
  intro r hr
  simp [h r hr]

theorem ban_any_false_aux (l : List (Nat × Int)) (u : Nat) (now : Int)
    (hnd : (l.map Prod.fst).Nodup)
    (h : (match (l.find? fun r => r.1 == u).map (fun r => r.2) with
          | none => true
          | some b => decide (b < now)) = true) :
    (l.any fun r => r.1 == u && decide (r.2 > now)) = false := by
  induction l with
  | nil => rfl
  | cons r rest ih =>
    rw [List.map_cons, List.nodup_cons] at hnd
    by_cases hr : r.1 = u
    · rw [List.find?_cons_of_pos _ (by simp [hr])] at h
      simp only [Option.map_some', decide_eq_true_eq] at h
      have h1 : decide (r.2 > now) = false := by
        simp only [decide_eq_false_iff_not]
        omega
      have h2 : (rest.any fun x => x.1 == u && decide (x.2 > now)) = false := by
        apply ban_any_eq_false_of_not_mem
        intro x hx hxu
        apply hnd.1
        have hmap : x.1 ∈ rest.map Prod.fst := List.mem_map_of_mem Prod.fst hx
        rwa [hxu, ← hr] at hmap
      simp [List.any_cons, h1, h2]
    · rw [List.find?_cons_of_neg _ (by simp [hr])] at h
      have h2 := ih hnd.2 h
      simp [List.any_cons, hr, h2]

theorem is_user_banned_eq_false (db : DB) (now : Int) (u : Nat)
    (hnd : (db.temp_bans.map Prod.fst).Nodup)
    (h : (match bansLookup db u with
          | none => true
          | some b => decide (b < now)) = true) :
    is_user_banned db now u = false :=
  ban_any_false_aux db.temp_bans u now hnd h

/-- C6: (1) every candidate returned by `get_all_active_partners` is
active, not currently banned and not the requester (so no inactive or
banned profile can enter a freshly built session queue; the `Nodup` side
condition is the `temp_bans` PRIMARY KEY); (2) right after
`ban(U, days)` with positive duration, `isBanned(U)` is true; (3) after
the ban, `U` is excluded from the candidate list at *every* later read
(the ban also clears the active flag, which nothing restores until
unban); (4) after `unban(U)`, `isBanned(U)` is false; and (5) `U`
reappears in eligibility — `unban_user` itself restores the active
flag — provided `U` has a profile row and is not the requester. -/
theorem claim_C6_moderation :
    (∀ (db : DB) (now : Int) (excl : Nat) (r : UserRow),
      (db.temp_bans.map Prod.fst).Nodup →
      r ∈ get_all_active_partners db now excl →
      r.is_active = true ∧ is_user_banned db now r.telegram_id = false ∧
        r.telegram_id ≠ excl) ∧
    (∀ (db : DB) (now : Int) (u : Nat) (days : Int), 0 < days →
      is_user_banned (ban_user_temporarily db now u days) now u = true) ∧
    (∀ (db : DB) (now : Int) (u : Nat) (days : Int) (now' : Int) (excl : Nat)
        (r : UserRow),
      r ∈ get_all_active_partners (ban_user_temporarily db now u days) now' excl →
      r.telegram_id ≠ u) ∧
    (∀ (db : DB) (now : Int) (u : Nat),
      is_user_banned (unban_user db u) now u = false) ∧
    (∀ (db : DB) (now : Int) (u excl : Nat), u ≠ excl →
      (∃ row ∈ db.users, row.telegram_id = u) →
      ∃ r ∈ get_all_active_partners (unban_user db u) now excl,
        r.telegram_id = u) := by
  refine ⟨?_, ?_, ?_, ?_, ?_⟩
  · intro db now excl r hnd hr
    obtain ⟨hmem, hpred⟩ := List.mem_filter.mp hr
    simp only [Bool.and_eq_true, bne_iff_ne, ne_eq] at hpred
    refine ⟨hpred.1.2, ?_, hpred.1.1⟩
    exact is_user_banned_eq_false db now r.telegram_id hnd (by
      rcases hmatch : bansLookup db r.telegram_id with - | b
      · simp
      · rw [hmatch] at hpred
        simpa using hpred.2)
  · intro db now u days hd
    have hgt : now + days * secondsPerDay > now := by
      simp only [secondsPerDay]
      omega
    simp only [ban_user_temporarily, deactivate_user, is_user_banned, List.any_append,
      List.any_cons, List.any_nil]
    simp [hgt]
  · intro db now u days now' excl r hr hru
    obtain ⟨hmem, hpred⟩ := List.mem_filter.mp hr
    simp only [Bool.and_eq_true, bne_iff_ne, ne_eq] at hpred
    have hact : r.is_active = true := hpred.1.2
    simp only [ban_user_temporarily, deactivate_user, List.mem_map] at hmem
    obtain ⟨row, hrow, hfr⟩ := hmem
    by_cases h : row.telegram_id = u
    · rw [if_pos h] at hfr
      rw [← hfr] at hact
      simp at hact
    · rw [if_neg h] at hfr
      rw [← hfr] at hru
      exact h hru
  · intro db now u
    simp only [unban_user, activate_user, is_user_banned]
    apply ban_any_eq_false_of_not_mem
    intro x hx
    obtain ⟨-, hxp⟩ := List.mem_filter.mp hx
    simpa using hxp
  · intro db now u excl hne hex
    obtain ⟨row, hrow, hid⟩ := hex
    refine ⟨{ row with is_active := true }, ?_, hid⟩
    apply List.mem_filter.mpr
    constructor
    · simp only [unban_user, activate_user, List.mem_map]
      exact ⟨row, hrow, by rw [if_pos hid]⟩
    · have hlook : bansLookup (unban_user db u) u = none := by
        simp only [unban_user, activate_user, bansLookup, Option.map_eq_none']
        apply List.find?_eq_none.mpr
        intro x hx
        obtain ⟨-, hxp⟩ := List.mem_filter.mp hx
        simpa using hxp
      have hidp : ({ row with is_active := true } : UserRow).telegram_id = u := hid
      rw [Bool.and_eq_true, Bool.and_eq_true]
      refine ⟨⟨?_, rfl⟩, ?_⟩
      · rw [hidp]
        simpa using hne
      · rw [hidp, hlook]

/-- C6 (witness): the moderation theorem instantiated on the one-user
database `dbW`: its sole user 1 is eligible and unbanned; banning user 1
for 5 days makes `isBanned` true; unbanning restores eligibility. -/
theorem claim_C6_witness :
    ((⟨1, "u", 0, 0, "", "", true, false⟩ : UserRow).is_active = true ∧
      is_user_banned dbW 0 1 = false ∧ (1 : Nat) ≠ 0) ∧
    is_user_banned (ban_user_temporarily dbW 0 1 5) 0 1 = true ∧
    is_user_banned (unban_user dbW 1) 0 1 = false ∧
    (∃ r ∈ get_all_active_partners (unban_user dbW 1) 0 0, r.telegram_id = 1) := by
  refine ⟨?_, ?_, ?_, ?_⟩
  · exact claim_C6_moderation.1 dbW 0 0 ⟨1, "u", 0, 0, "", "", true, false⟩
      (by decide) (by decide)
  · exact claim_C6_moderation.2.1 dbW 0 1 5 (by norm_num)
  · exact claim_C6_moderation.2.2.2.1 dbW 0 1
  · exact claim_C6_moderation.2.2.2.2 dbW 0 1 0 (by decide)
      ⟨⟨1, "u", 0, 0, "", "", true, false⟩, by simp [dbW], rfl⟩

/-! ## C7 — session queue traversal and restart -/

/-- C7: from `build([1,2,3])`, three advances return 1, 2, 3, a fourth
advance signals exhaustion (`none`), and `restart` then resets the queue
to the stored original snapshot and returns its head 1. -/
theorem claim_C7_session_queue :
    (next_partner (buildSession [1, 2, 3])).1 = some 1 ∧
    (next_partner (next_partner (buildSession [1, 2, 3])).2).1 = some 2 ∧
    (next_partner (next_partner (next_partner (buildSession [1, 2, 3])).2).2).1 = some 3 ∧
    (next_partner
      (next_partner (next_partner (next_partner (buildSession [1, 2, 3])).2).2).2).1 =
      none ∧
    (restart_search
      (next_partner (next_partner (next_partner (buildSession [1, 2, 3])).2).2).2).1 =
      some 1 ∧
    Session.partner_queue
      (restart_search
        (next_partner (next_partner (next_partner (buildSession [1, 2, 3])).2).2).2).2 =
      [1, 2, 3] := by
  decide

/-! ## C8 — failure during a database operation -/

/-- C8 (counterexample): an operation whose first statement inserts the
edge `(1, 2)` and whose second statement raises leaves the edge
committed: `Database.__exit__` runs `conn.commit()` unconditionally, also
when the body raised, so the stored state is *not* unchanged — the
partial edge survives even though the failure is surfaced (`none`). -/
theorem claim_C8_counterexample :
    (safe_db_execute [insertLikeStep 1 2, failingStep] emptyDB).1.likes = [(1, 2)] ∧
    (safe_db_execute [insertLikeStep 1 2, failingStep] emptyDB).2 = none ∧
    emptyDB.likes = [] := by
  refine ⟨rfl, rfl, rfl⟩

/-- C8 (amended): when a statement of an operation fails partway, the
failure is surfaced to the caller as `none` (the retryable-error return of
`safe_db_execute`) and the statements after it do not run — but the
writes issued *before* the failure are committed, not rolled back: the
committed state is exactly the fold of the successful prefix.  (`rollback`
runs only if `commit` itself raises.)  In particular the state is
unchanged only when the failure precedes the first write. -/
theorem claim_C8_amended (ws : List (DB → DB)) (rest : List Step) (db : DB) :
    safe_db_execute (ws.map liftWrite ++ failingStep :: rest) db =
      (ws.foldl (fun d f => f d) db, none) := by
  induction ws generalizing db with
  | nil => rfl
  | cons f fs ih =>
    simpa [safe_db_execute, runSteps, liftWrite, List.foldl_cons] using ih (f db)

/-! ## C9 — bounded per-key memory of the rate limiter -/

theorem limiter_foldl_length_le (limit : Nat) (period : Int) :
    ∀ (times reqs : List Int), reqs.length ≤ limit →
      (times.foldl (fun reqs now => (check_limit reqs now limit period).1) reqs).length ≤
        limit := by
  intro times
  induction times with
  | nil => intro reqs h; simpa using h
  | cons now rest ih =>
    intro reqs h
    rw [List.foldl_cons]
    apply ih
    simp only [check_limit]
    split
    · exact le_trans (List.length_filter_le _ _) h
    · rename_i hlt
      rw [List.length_append, List.length_singleton]
      omega

/-- C9: for every fixed limit, period and call sequence, the per-key
timestamp list of the rate limiter never exceeds `limit` entries after
any call — a timestamp is appended only when, after pruning, fewer than
`limit` remain, so per-key memory stays bounded. -/
theorem claim_C9_limiter_memory_bounded (limit : Nat) (period : Int) (times : List Int) :
    (limiterRun limit period times).length ≤ limit :=
  limiter_foldl_length_le limit period times [] (by simp)

/-! ## C10 — the `matches` listing reads a table that is never created -/

/-- C10: `Database.create_tables` (main.py) creates only `profiles`,
`likes` and `daily_likes`, and no operation of the program ever creates
another table; the `matches` command's query references the table
`matches`, so on every schema reachable through the program's own
operations it raises the database error instead of returning matched
profiles. -/
theorem claim_C10_matches_table_missing (ops : List MainOp) :
    matchesListing (mainSchemaAfter ops) = Except.error "no such table" := by
  have h : mainSchemaAfter ops = mainSchemaTables := by
    induction ops with
    | nil => rfl
    | cons o rest ih => exact ih
  rw [h]
  rfl

end RustTeamSearch
